import Mathlib

/-!
Shallow embedding of the identity & session security core of the
Indian Railways Smart Platform (Mongoose `User` schema and Express
`/api/auth` routes).  Timestamps are milliseconds since the epoch,
modelled as `Nat`.  External cryptographic primitives (bcrypt, sha256,
jwt signing) are modelled by explicit parameters: the routes only
branch on their boolean/equality outcomes.
-/

namespace Rail

/-- Enum of `user.status` (`UserSchema.status` field), default `pending_verification`. -/
inductive Status where
  | active
  | suspended
  | pending_verification
  | deactivated
deriving DecidableEq, Repr

/-- The `loginAttempts` sub-document of the user schema:
`{ count: Number (default 0), lockUntil: Date, resetAt: Date }`. -/
structure LoginAttempts where
  count : Nat
  lockUntil : Option Nat
  resetAt : Option Nat
deriving DecidableEq, Repr

/-- The fields of the `User` document that the auth routes read or write.
`password` stores the bcrypt hash (the pre-save hook hashes assignments);
`passwordResetToken` stores the sha256 hash of the raw reset token. -/
structure User where
  loginAttempts : LoginAttempts
  status : Status
  password : Nat
  passwordResetToken : Option Nat
  passwordResetExpires : Option Nat
deriving DecidableEq, Repr

/-- Threshold `maxAttempts = 5` in `incLoginAttempts`. -/
def maxAttempts : Nat := 5

/-- Duration `lockTime = 2 * 60 * 60 * 1000` (2 hours) in `incLoginAttempts`. -/
def lockTime : Nat := 2 * 60 * 60 * 1000

/-- Virtual `isLocked`:
`!!(this.loginAttempts.lockUntil && this.loginAttempts.lockUntil > Date.now())`. -/
def isLocked (u : User) (now : Nat) : Bool :=
  match u.loginAttempts.lockUntil with
  | some l => now < l
  | none => false

/-- Method `incLoginAttempts`, split into the update document computed from the
in-memory snapshot `snap` of `this.loginAttempts`, applied to the stored
document `store` (MongoDB applies `$inc`/`$set`/`$unset` atomically to the
stored document; the branch conditions read the snapshot):
* if `snap.lockUntil && snap.lockUntil < Date.now()`: `$unset lockUntil`,
  `$set count := 1, resetAt := now`;
* else `$inc count by 1`, and if `snap.count + 1 >= maxAttempts && !isLocked`
  (on the snapshot) also `$set lockUntil := now + lockTime`. -/
def incLoginAttemptsUpdate (snap : LoginAttempts) (now : Nat) (store : User) : User :=
  match snap.lockUntil with
  | some l =>
    if l < now then
      { store with loginAttempts :=
          { count := 1, lockUntil := none, resetAt := some now } }
    else
      incElse snap now store
  | none => incElse snap now store
where
  /-- the non-expired branch: `$inc count`, conditionally `$set lockUntil`. -/
  incElse (snap : LoginAttempts) (now : Nat) (store : User) : User :=
    let snapLocked : Bool := match snap.lockUntil with
      | some l => now < l
      | none => false
    let la := { store.loginAttempts with count := store.loginAttempts.count + 1 }
    if snap.count + 1 ≥ maxAttempts ∧ ¬ snapLocked then
      { store with loginAttempts := { la with lockUntil := some (now + lockTime) } }
    else
      { store with loginAttempts := la }

/-- Sequential run of `UserSchema.methods.incLoginAttempts`: the snapshot is
the stored document itself. -/
def incLoginAttempts (u : User) (now : Nat) : User :=
  incLoginAttemptsUpdate u.loginAttempts now u

/-- Fold of consecutive failed verifications through `incLoginAttempts`,
one per timestamp in the list. -/
def incFailures (u : User) (ts : List Nat) : User :=
  ts.foldl (fun v t => incLoginAttempts v t) u

/-- Method `resetLoginAttempts`: `$unset loginAttempts.count, loginAttempts.lockUntil`
(`count` re-reads as its schema default 0), `$set lastLogin.*` (lastLogin is
not modelled; `resetAt` is untouched). -/
def resetLoginAttempts (u : User) : User :=
  { u with loginAttempts :=
      { count := 0, lockUntil := none, resetAt := u.loginAttempts.resetAt } }

/-- JSON error body `{success, error, tip}` returned by the auth routes. -/
structure ErrorBody where
  success : Bool
  error : String
  tip : String
deriving DecidableEq, Repr

/-- Body (401) of the unknown-user branch of the login route. -/
def unknownUserBody : ErrorBody :=
  ⟨false, "Invalid email/phone or password",
    "Make sure you entered the correct credentials, or create a new account"⟩

/-- Body (423) of the `isLocked` branch of the login route. -/
def lockedBody : ErrorBody :=
  ⟨false, "Account temporarily locked due to multiple failed login attempts",
    "Please try again later or reset your password"⟩

/-- Body (403) of the suspended branch of the login route. -/
def suspendedBody : ErrorBody :=
  ⟨false, "Your account has been suspended",
    "Please contact our support team for assistance"⟩

/-- Body (401) of the wrong-password branch of the login route. -/
def wrongPasswordBody : ErrorBody :=
  ⟨false, "Invalid email/phone or password",
    "Double-check your password or use the forgot password option"⟩

/-- Outcome of a login request whose identifier matched a user: HTTP status,
error body (none on 200), and the stored user after the request. -/
structure FoundReply where
  status : Nat
  body : Option ErrorBody
  user : User
deriving DecidableEq, Repr

/-- The login route after a user was found, branching in source
order: `isLocked` gate (423), suspended gate (403), then
`comparePassword`; on a wrong password `incLoginAttempts` then 401; on a
correct password `resetLoginAttempts` then 200.  `passwordValid` is the
outcome of the bcrypt comparison. -/
def loginFound (u : User) (passwordValid : Bool) (now : Nat) : FoundReply :=
  if isLocked u now then ⟨423, some lockedBody, u⟩
  else if u.status = Status.suspended then ⟨403, some suspendedBody, u⟩
  else if ¬ passwordValid then ⟨401, some wrongPasswordBody, incLoginAttempts u now⟩
  else ⟨200, none, resetLoginAttempts u⟩

/-- The login route including the unknown-user branch:
`found = none` models `findByEmailOrPhone` returning no user. -/
def login (found : Option User) (passwordValid : Bool) (now : Nat) :
    Nat × Option ErrorBody :=
  match found with
  | none => (401, some unknownUserBody)
  | some u => ((loginFound u passwordValid now).status, (loginFound u passwordValid now).body)

/-- Consecutive wrong-password login requests through the full route, one
per timestamp; returns the reply of the last request. -/
def loginFailRun (u : User) (ts : List Nat) : FoundReply :=
  ts.foldl (fun r t => loginFound r.user false t) ⟨200, none, u⟩

/-- A freshly registered user: `new User({...})` leaves `status` at its
schema default `pending_verification` and `loginAttempts.count` at 0. -/
def freshUser : User :=
  ⟨⟨0, none, none⟩, Status.pending_verification, 0, none, none⟩

/-- C1: from an account with failureCount 0 and no lock in effect, 4
consecutive failed verifications leave it unlocked with count 4 and no
lockedUntil; the 5th failure (at time `t5`) locks it until `t5 + 2h`. -/
theorem lockout_after_five_failures (u : User) (t1 t2 t3 t4 t5 : Nat)
    (hc : u.loginAttempts.count = 0) (hl : u.loginAttempts.lockUntil = none) :
    ((incFailures u [t1, t2, t3, t4]).loginAttempts.count = 4
      ∧ (incFailures u [t1, t2, t3, t4]).loginAttempts.lockUntil = none)
    ∧ ((incFailures u [t1, t2, t3, t4, t5]).loginAttempts.count = 5
      ∧ (incFailures u [t1, t2, t3, t4, t5]).loginAttempts.lockUntil
          = some (t5 + lockTime)) := by
  simp [incFailures, incLoginAttempts, incLoginAttemptsUpdate,
    incLoginAttemptsUpdate.incElse, hc, hl, maxAttempts]

/-- Witness for C1 at a concrete account and concrete times. -/
theorem lockout_after_five_failures_witness :
    let u : User := ⟨⟨0, none, none⟩, Status.pending_verification, 0, none, none⟩
    ((incFailures u [10, 20, 30, 40]).loginAttempts.count = 4
      ∧ (incFailures u [10, 20, 30, 40]).loginAttempts.lockUntil = none)
    ∧ ((incFailures u [10, 20, 30, 40, 50]).loginAttempts.count = 5
      ∧ (incFailures u [10, 20, 30, 40, 50]).loginAttempts.lockUntil
          = some (50 + lockTime)) :=
  lockout_after_five_failures _ 10 20 30 40 50 rfl rfl

/-- C2 counterexample: from a freshly registered user, the 5th consecutive
wrong-password login request returns HTTP 401, not 423 (the lock is only
created during that 5th request, after the `isLocked` gate already passed). -/
theorem fifth_attempt_returns_401_not_423 :
    (loginFailRun freshUser [0, 1, 2, 3, 4]).status = 401
    ∧ (loginFailRun freshUser [0, 1, 2, 3, 4]).status ≠ 423 := by
  decide

/-- C2 amended: the 5th consecutive wrong-password login on a fresh user
returns 401 and locks the account until `t5 + 2h`; the next (6th) attempt,
made while that lock is in effect, returns 423. -/
theorem fifth_failure_locks_sixth_rejected (t1 t2 t3 t4 t5 t6 : Nat)
    (h6 : t6 < t5 + lockTime) :
    ((loginFailRun freshUser [t1, t2, t3, t4, t5]).status = 401
      ∧ (loginFailRun freshUser [t1, t2, t3, t4, t5]).user.loginAttempts.lockUntil
          = some (t5 + lockTime))
    ∧ (loginFound (loginFailRun freshUser [t1, t2, t3, t4, t5]).user false t6).status
        = 423 := by
  simp [loginFailRun, loginFound, freshUser, isLocked, incLoginAttempts,
    incLoginAttemptsUpdate, incLoginAttemptsUpdate.incElse, maxAttempts, h6,
    Status]

/-- Witness for the amended C2 at concrete times. -/
theorem fifth_failure_locks_sixth_rejected_witness :
    0 < 0 + lockTime
    ∧ (((loginFailRun freshUser [0, 0, 0, 0, 0]).status = 401
        ∧ (loginFailRun freshUser [0, 0, 0, 0, 0]).user.loginAttempts.lockUntil
            = some (0 + lockTime))
      ∧ (loginFound (loginFailRun freshUser [0, 0, 0, 0, 0]).user false 0).status
          = 423) :=
  ⟨by decide, fifth_failure_locks_sixth_rejected 0 0 0 0 0 0 (by decide)⟩

/-- C3: while an account is locked (`now < lockedUntil`), every login
attempt — with a correct or a wrong password — returns 423 and leaves the
stored user (hence `failureCount` and `lockedUntil`) unchanged: the lock
gate runs before password verification. -/
theorem locked_login_rejected_unchanged (u : User) (pv : Bool) (now l : Nat)
    (hl : u.loginAttempts.lockUntil = some l) (hn : now < l) :
    (loginFound u pv now).status = 423
    ∧ (loginFound u pv now).body = some lockedBody
    ∧ (loginFound u pv now).user = u := by
  simp [loginFound, isLocked, hl, hn]

/-- Witness for C3: a locked account rejects even a correct password. -/
theorem locked_login_rejected_unchanged_witness :
    let u : User := ⟨⟨5, some 1000, none⟩, Status.active, 0, none, none⟩
    (loginFound u true 500).status = 423
    ∧ (loginFound u true 500).body = some lockedBody
    ∧ (loginFound u true 500).user = u :=
  locked_login_rejected_unchanged _ true 500 1000 rfl (by decide)

/-- C4 counterexample: at the exact boundary `now = lockedUntil` (claimed
covered by `now() >= lockedUntil`), a wrong password does not restart at
failureCount 1: the account `⟨count 5, lockUntil 1000⟩` at `now = 1000`
ends with count 6 and a fresh lock `1000 + 2h`, because the expiry test in
`incLoginAttempts` is strict (`lockUntil < Date.now()`) while `isLocked`
is also strict (`lockUntil > Date.now()`). -/
theorem boundary_equal_rollover_cex :
    let u : User := ⟨⟨5, some 1000, none⟩, Status.active, 0, none, none⟩
    (1000 : Nat) ≥ 1000
    ∧ (loginFound u false 1000).user.loginAttempts.count = 6
    ∧ (loginFound u false 1000).user.loginAttempts.lockUntil
        = some (1000 + lockTime) := by
  decide

/-- C4 amended: once `now` is strictly past `lockedUntil`, the next login
is evaluated as from `Unlocked(0)`: a correct password succeeds (200) and
clears count and lock; a wrong password gives 401 with failureCount 1 and
no lockedUntil set. -/
theorem expired_lock_rollover (u : User) (now l : Nat)
    (hl : u.loginAttempts.lockUntil = some l) (hn : l < now)
    (hs : u.status ≠ Status.suspended) :
    ((loginFound u true now).status = 200
      ∧ (loginFound u true now).user.loginAttempts.count = 0
      ∧ (loginFound u true now).user.loginAttempts.lockUntil = none)
    ∧ ((loginFound u false now).status = 401
      ∧ (loginFound u false now).user.loginAttempts.count = 1
      ∧ (loginFound u false now).user.loginAttempts.lockUntil = none) := by
  simp [loginFound, isLocked, hl, Nat.not_lt.mpr (Nat.le_of_lt hn), hs,
    resetLoginAttempts, incLoginAttempts, incLoginAttemptsUpdate, hn]

/-- Witness for the amended C4 on a concrete expired-lock account. -/
theorem expired_lock_rollover_witness :
    let u : User := ⟨⟨5, some 1000, none⟩, Status.active, 0, none, none⟩
    ((loginFound u true 2000).status = 200
      ∧ (loginFound u true 2000).user.loginAttempts.count = 0
      ∧ (loginFound u true 2000).user.loginAttempts.lockUntil = none)
    ∧ ((loginFound u false 2000).status = 401
      ∧ (loginFound u false 2000).user.loginAttempts.count = 1
      ∧ (loginFound u false 2000).user.loginAttempts.lockUntil = none) :=
  expired_lock_rollover _ 2000 1000 rfl (by decide) (by decide)

/-- Horizon of `passwordResetExpires` in `generatePasswordResetToken`:
`10 * 60 * 1000` (10 minutes). -/
def resetTokenTtl : Nat := 10 * 60 * 1000

/-- Method `UserSchema.methods.generatePasswordResetToken`: draws a fresh raw
token (modelled as the input `rawToken`), stores only its sha256 hash
(`tokHash` models sha256) and the expiry `now + 10m`, overwriting any
previously stored hash/expiry. -/
def generatePasswordResetToken (tokHash : Nat → Nat) (u : User)
    (rawToken now : Nat) : User :=
  { u with passwordResetToken := some (tokHash rawToken),
           passwordResetExpires := some (now + resetTokenTtl) }

/-- Match condition of the `findOne` call of the reset-password route:
`passwordResetToken` equal to the presented hash and `passwordResetExpires`
strictly greater than `Date.now()`. -/
def resetTokenMatches (u : User) (hashedToken now : Nat) : Bool :=
  (u.passwordResetToken == some hashedToken)
    && match u.passwordResetExpires with
       | some e => decide (now < e)
       | none => false

/-- The save step of a successful reset: replace the password (the
pre-save hook bcrypts the assignment; `newPasswordHash` is its output),
clear both reset-token fields, and reset `loginAttempts.count`/`lockUntil`. -/
def applyResetUpdate (u : User) (newPasswordHash : Nat) : User :=
  { u with password := newPasswordHash,
           passwordResetToken := none,
           passwordResetExpires := none,
           loginAttempts :=
             { count := 0, lockUntil := none, resetAt := u.loginAttempts.resetAt } }

/-- Outcome of the reset-password route: HTTP status and
the stored user after the request. -/
structure ResetReply where
  status : Nat
  user : User
deriving DecidableEq, Repr

/-- The reset-password route run sequentially: hash the
presented raw token, look it up with an unexpired match; on a miss return
400 with the store untouched, on a hit apply the reset update and 200. -/
def resetPassword (tokHash : Nat → Nat) (u : User)
    (rawToken newPasswordHash now : Nat) : ResetReply :=
  if resetTokenMatches u (tokHash rawToken) now then
    ⟨200, applyResetUpdate u newPasswordHash⟩
  else
    ⟨400, u⟩

/-- C5 counterexample: a successful password reset also resets
`loginAttempts.count` (here from 3 to 0) and clears `lockUntil`, so the
claim that no operation other than login success / expired-lock rollover
changes failureCount is false. -/
theorem reset_password_resets_count_cex :
    let u : User := ⟨⟨3, some 999999999, none⟩, Status.active, 0, some 5, some 1000⟩
    u.loginAttempts.count = 3
    ∧ (resetPassword id u 5 9 100).status = 200
    ∧ (resetPassword id u 5 9 100).user.loginAttempts.count = 0
    ∧ (resetPassword id u 5 9 100).user.loginAttempts.lockUntil = none := by
  decide

/-- C5 amended: failureCount is incremented (or restarted at 1 on an
expired-lock rollover) only by `incLoginAttempts`; it is reset to zero by
a successful authentication (`resetLoginAttempts`) and also by a
successful password reset; a failed reset and token issuance leave the
whole login-attempt state unchanged. -/
theorem failure_count_mutation_rules (tokHash : Nat → Nat) (u : User)
    (t p now : Nat) :
    ((incLoginAttempts u now).loginAttempts.count = u.loginAttempts.count + 1
      ∨ (incLoginAttempts u now).loginAttempts.count = 1)
    ∧ (resetLoginAttempts u).loginAttempts.count = 0
    ∧ (generatePasswordResetToken tokHash u t now).loginAttempts
        = u.loginAttempts
    ∧ ((resetPassword tokHash u t p now).status = 200 →
        (resetPassword tokHash u t p now).user.loginAttempts.count = 0
        ∧ (resetPassword tokHash u t p now).user.loginAttempts.lockUntil = none)
    ∧ ((resetPassword tokHash u t p now).status ≠ 200 →
        (resetPassword tokHash u t p now).user = u) := by
  refine ⟨?_, rfl, rfl, ?_, ?_⟩
  · unfold incLoginAttempts incLoginAttemptsUpdate incLoginAttemptsUpdate.incElse
    rcases u.loginAttempts.lockUntil with _ | l
    · simp only []
      split <;> simp
    · simp only []
      split
      · simp
      · split <;> simp
  · intro h
    by_cases hm : resetTokenMatches u (tokHash t) now = true
    · simp [resetPassword, hm, applyResetUpdate]
    · simp [resetPassword, hm] at h
  · intro h
    by_cases hm : resetTokenMatches u (tokHash t) now = true
    · simp [resetPassword, hm] at h
    · simp [resetPassword, hm]

/-- Witness for the amended C5 at a concrete account. -/
theorem failure_count_mutation_rules_witness :
    let u : User := ⟨⟨3, some 999999999, none⟩, Status.active, 0, some 5, some 1000⟩
    ((incLoginAttempts u 100).loginAttempts.count = u.loginAttempts.count + 1
      ∨ (incLoginAttempts u 100).loginAttempts.count = 1)
    ∧ (resetLoginAttempts u).loginAttempts.count = 0
    ∧ (generatePasswordResetToken id u 5 100).loginAttempts = u.loginAttempts
    ∧ ((resetPassword id u 5 9 100).status = 200 →
        (resetPassword id u 5 9 100).user.loginAttempts.count = 0
        ∧ (resetPassword id u 5 9 100).user.loginAttempts.lockUntil = none)
    ∧ ((resetPassword id u 5 9 100).status ≠ 200 →
        (resetPassword id u 5 9 100).user = u) :=
  failure_count_mutation_rules id _ 5 9 100

/-- A concrete user holding a live reset token (stored hash 5, expiry
1000) — `id` stands in for sha256 in concrete evaluations. -/
def uTok : User := ⟨⟨2, none, none⟩, Status.active, 0, some 5, some 1000⟩

/-- C7: a consumed reset token cannot be consumed again — the successful
consume writes the new password hash and clears the stored token hash and
expiry in the same save, so re-presenting the same raw token gets 400 —
and issuing a new token overwrites the single stored hash, so an older
raw token (whose hash differs) is rejected. -/
theorem reset_token_single_use (tokHash : Nat → Nat) (u : User)
    (t p now p2 now2 t1 t2 n1 n2 q m : Nat)
    (h : (resetPassword tokHash u t p now).status = 200)
    (hne : tokHash t1 ≠ tokHash t2) :
    ((resetPassword tokHash u t p now).user.password = p
      ∧ (resetPassword tokHash u t p now).user.passwordResetToken = none
      ∧ (resetPassword tokHash u t p now).user.passwordResetExpires = none
      ∧ (resetPassword tokHash (resetPassword tokHash u t p now).user
          t p2 now2).status = 400)
    ∧ (resetPassword tokHash
        (generatePasswordResetToken tokHash
          (generatePasswordResetToken tokHash u t1 n1) t2 n2) t1 q m).status
        = 400 := by
  constructor
  · have h200 : resetPassword tokHash u t p now = ⟨200, applyResetUpdate u p⟩ := by
      by_cases hm : resetTokenMatches u (tokHash t) now = true
      · simp [resetPassword, hm]
      · simp [resetPassword, hm] at h
    rw [h200]
    refine ⟨rfl, rfl, rfl, ?_⟩
    simp [resetPassword, resetTokenMatches, applyResetUpdate]
  · simp [resetPassword, resetTokenMatches, generatePasswordResetToken,
      Ne.symm hne]

/-- Witness for C7: a concrete user with a live token, consumed once,
then rejected; and the older of two issued tokens rejected. -/
theorem reset_token_single_use_witness :
    (Rail.resetPassword id uTok 5 9 100).status = 200
    ∧ (id 7 : Nat) ≠ id 8
    ∧ (((Rail.resetPassword id uTok 5 9 100).user.password = 9
      ∧ (Rail.resetPassword id uTok 5 9 100).user.passwordResetToken = none
      ∧ (Rail.resetPassword id uTok 5 9 100).user.passwordResetExpires = none
      ∧ (Rail.resetPassword id (Rail.resetPassword id uTok 5 9 100).user
          5 11 100).status = 400)
    ∧ (Rail.resetPassword id
        (Rail.generatePasswordResetToken id
          (Rail.generatePasswordResetToken id uTok 7 50) 8 60) 7 13 70).status
        = 400) :=
  ⟨by decide, by decide,
    reset_token_single_use id uTok 5 9 100 11 100 7 8 50 60 13 70
      (by decide) (by decide)⟩

/-- C6 counterexample: the 401 bodies of the unknown-identifier branch and
of the wrong-password branch are not identical — their `tip` fields differ
— so a caller can tell from the body whether the identifier exists. -/
theorem login_401_bodies_differ_cex :
    (login none false 0).2 = some unknownUserBody
    ∧ (login (some ⟨⟨0, none, none⟩, Status.active, 0, none, none⟩) false 0).2
        = some wrongPasswordBody
    ∧ unknownUserBody ≠ wrongPasswordBody := by
  refine ⟨rfl, rfl, ?_⟩
  intro h
  have := congrArg ErrorBody.tip h
  simp [unknownUserBody, wrongPasswordBody] at this

/-- C6 amended: both failure cases return status 401 with `success = false`
and the identical `error` string, but the `tip` strings differ, so the full
bodies are distinguishable. -/
theorem login_401_error_field_identical (u : User) (now : Nat)
    (hl : isLocked u now = false) (hs : u.status ≠ Status.suspended) :
    ((login none false now).1 = 401 ∧ (loginFound u false now).status = 401)
    ∧ (login none false now).2 = some unknownUserBody
    ∧ (loginFound u false now).body = some wrongPasswordBody
    ∧ unknownUserBody.error = wrongPasswordBody.error
    ∧ unknownUserBody.success = wrongPasswordBody.success
    ∧ unknownUserBody.tip ≠ wrongPasswordBody.tip := by
  refine ⟨⟨rfl, ?_⟩, rfl, ?_, rfl, rfl, ?_⟩
  · simp [loginFound, hl, hs]
  · simp [loginFound, hl, hs]
  · intro h
    simp [unknownUserBody, wrongPasswordBody] at h

/-- Witness for the amended C6 at a concrete unlocked active account. -/
theorem login_401_error_field_identical_witness :
    let u : User := ⟨⟨0, none, none⟩, Status.active, 0, none, none⟩
    isLocked u 0 = false
    ∧ (((login none false 0).1 = 401 ∧ (loginFound u false 0).status = 401)
      ∧ (login none false 0).2 = some unknownUserBody
      ∧ (loginFound u false 0).body = some wrongPasswordBody
      ∧ unknownUserBody.error = wrongPasswordBody.error
      ∧ unknownUserBody.success = wrongPasswordBody.success
      ∧ unknownUserBody.tip ≠ wrongPasswordBody.tip) :=
  ⟨rfl, login_401_error_field_identical _ 0 rfl (by decide)⟩

/-- Read phase of the reset-password route (the `findOne` call): does
the store currently hold an unexpired matching token hash? -/
def consumeRead (tokHash : Nat → Nat) (store : User) (rawToken now : Nat) : Bool :=
  resetTokenMatches store (tokHash rawToken) now

/-- Two concurrent reset-password requests for the same raw token,
interleaved read-read-write-write (the event loop suspends each handler
between its `findOne` and its `save`): each request decides on its own
read of the store and the writes land in order.  Returns both HTTP
statuses and the final store. -/
def twoConcurrentConsumes (tokHash : Nat → Nat) (store : User)
    (t pA pB now : Nat) : Nat × Nat × User :=
  let okA := consumeRead tokHash store t now
  let okB := consumeRead tokHash store t now
  let s1 := if okA then applyResetUpdate store pA else store
  let s2 := if okB then applyResetUpdate s1 pB else s1
  (if okA then 200 else 400, if okB then 200 else 400, s2)

/-- Two concurrent failed-login attempts for the same identity,
interleaved read-read-write-write: both `incLoginAttempts` update
documents are built from the same stale snapshot of `loginAttempts`, then
applied to the store in order (the `$inc` itself is atomic at the store). -/
def twoConcurrentFailedAttempts (store : User) (now1 now2 : Nat) : User :=
  incLoginAttemptsUpdate store.loginAttempts now2
    (incLoginAttemptsUpdate store.loginAttempts now1 store)

/-- C8 (code bug): neither sequence is one atomic conditional update.  Two
concurrent consumptions of the same valid reset token both return 200
(double-spend), while the sequential second consume returns 400; and two
concurrent failed attempts from count 3 reach count 5 with no lock set
(the threshold test used the stale snapshot), while the same two failures
run sequentially set the lock. -/
theorem concurrent_auth_updates_race :
    let u3 : User := ⟨⟨3, none, none⟩, Status.active, 0, none, none⟩
    ((twoConcurrentConsumes id uTok 5 7 8 100).1 = 200
      ∧ (twoConcurrentConsumes id uTok 5 7 8 100).2.1 = 200)
    ∧ (resetPassword id (resetPassword id uTok 5 7 100).user 5 8 100).status = 400
    ∧ ((twoConcurrentFailedAttempts u3 50 60).loginAttempts.count = 5
      ∧ (twoConcurrentFailedAttempts u3 50 60).loginAttempts.lockUntil = none)
    ∧ (incFailures u3 [50, 60]).loginAttempts.count = 5
    ∧ (incFailures u3 [50, 60]).loginAttempts.lockUntil = some (60 + lockTime) := by
  decide

/-- The payload `{ id: this._id }` that `generateRefreshToken` signs. -/
structure RefreshPayload where
  id : Nat
deriving DecidableEq, Repr

/-- A signed token: its payload plus the `expiresIn` lifetime fixed at
signing time. -/
structure SignedToken where
  payload : RefreshPayload
  expiresInMs : Nat
deriving DecidableEq, Repr

/-- Fallback value 7d of the JWT_REFRESH_EXPIRE environment setting. -/
def refreshExpireDefault : Nat := 7 * 24 * 60 * 60 * 1000

/-- Method `UserSchema.methods.generateRefreshToken`: signs `{id}` with the
lifetime `JWT_REFRESH_EXPIRE || 7d`; it takes no remember-me input. -/
def generateRefreshToken (userId : Nat) (envRefreshExpire : Option Nat) :
    SignedToken :=
  ⟨⟨userId⟩, envRefreshExpire.getD refreshExpireDefault⟩

/-- `cookieOptions.maxAge` in the login route:
`rememberMe ? 30 * 24 * 60 * 60 * 1000 : 7 * 24 * 60 * 60 * 1000`. -/
def cookieMaxAge (rememberMe : Bool) : Nat :=
  if rememberMe then 30 * 24 * 60 * 60 * 1000 else 7 * 24 * 60 * 60 * 1000

/-- Refresh-token issuance on the login success path: the token comes from
`generateRefreshToken` (no remember-me argument); `rememberMe` is consulted
only for the cookie `maxAge`. -/
def loginIssueRefresh (userId : Nat) (envRefreshExpire : Option Nat)
    (rememberMe : Bool) : SignedToken × Nat :=
  (generateRefreshToken userId envRefreshExpire, cookieMaxAge rememberMe)

/-- C9 counterexample: with the default configuration, the refresh token
issued with rememberMe set is byte-identical to the one issued without it,
and its lifetime is 7 days, not on the order of 30 days: the remember-me
flag never reaches the token signer. -/
theorem refresh_expiry_ignores_remember_me_cex :
    (loginIssueRefresh 1 none true).1 = (loginIssueRefresh 1 none false).1
    ∧ (loginIssueRefresh 1 none true).1.expiresInMs = 7 * 24 * 60 * 60 * 1000
    ∧ (loginIssueRefresh 1 none true).1.expiresInMs ≠ 30 * 24 * 60 * 60 * 1000 := by
  decide

/-- C9 amended: the refresh token carries only the identity id and its
expiry is the fixed configured value (default 7 days), independent of the
remember-me flag; remember-me determines only the cookie maxAge (30 days
when set, 7 days otherwise). -/
theorem refresh_token_fixed_expiry_cookie_varies (userId : Nat)
    (env : Option Nat) (rememberMe : Bool) :
    (loginIssueRefresh userId env rememberMe).1.payload = ⟨userId⟩
    ∧ (loginIssueRefresh userId env rememberMe).1
        = (loginIssueRefresh userId env (! rememberMe)).1
    ∧ (loginIssueRefresh userId none rememberMe).1.expiresInMs
        = refreshExpireDefault
    ∧ (loginIssueRefresh userId env true).2 = 30 * 24 * 60 * 60 * 1000
    ∧ (loginIssueRefresh userId env false).2 = 7 * 24 * 60 * 60 * 1000 :=
  ⟨rfl, rfl, rfl, rfl, rfl⟩

/-- Outcome of the refresh route: HTTP status and the `error`
string of the body (none on 200). -/
structure RefreshReply where
  status : Nat
  error : Option String
deriving DecidableEq, Repr

/-- The refresh route: no token → 401 required; `jwt.verify`
throws (caught) → 401 invalid; a missing user or a status other than
active → 401 invalid; otherwise 200 with a fresh access token.  `verified` is the
decoded id when signature and expiry checks pass, `lookup` models
`User.findById`. -/
def refreshRoute (tokenPresent : Bool) (verified : Option Nat)
    (lookup : Nat → Option User) : RefreshReply :=
  if ¬ tokenPresent then ⟨401, some "Refresh token is required"⟩
  else
    match verified with
    | none => ⟨401, some "Invalid refresh token"⟩
    | some uid =>
      match lookup uid with
      | none => ⟨401, some "Invalid refresh token"⟩
      | some u =>
        if u.status ≠ Status.active then ⟨401, some "Invalid refresh token"⟩
        else ⟨200, none⟩

/-- C10: a validly signed, unexpired refresh token for a user whose status
is not `active` is answered with the generic 401 "Invalid refresh token";
a freshly registered user has the default status `pending_verification`,
so the refresh token handed out at registration cannot be redeemed until
the account becomes active. -/
theorem refresh_rejects_inactive (u : User) (uid : Nat)
    (hs : u.status ≠ Status.active) :
    refreshRoute true (some uid) (fun _ => some u)
        = ⟨401, some "Invalid refresh token"⟩
    ∧ freshUser.status = Status.pending_verification
    ∧ Status.pending_verification ≠ Status.active := by
  refine ⟨?_, rfl, by decide⟩
  simp [refreshRoute, hs]

/-- Witness for C10: the freshly registered user itself. -/
theorem refresh_rejects_inactive_witness :
    freshUser.status ≠ Status.active
    ∧ (refreshRoute true (some 1) (fun _ => some freshUser)
          = ⟨401, some "Invalid refresh token"⟩
      ∧ freshUser.status = Status.pending_verification
      ∧ Status.pending_verification ≠ Status.active) :=
  ⟨by decide, refresh_rejects_inactive freshUser 1 (by decide)⟩

end Rail
